import Mathlib

/-!
Shallow embedding of the annotation-plotting notebook
`sm-bbox/sm-bbox-annotation/sm-bbox-annotation-plot.ipynb` (repository
`yapweiyih/pyutil`) and proofs about its behavior.

The notebook's single code cell lists annotation JSON files, and for each
file (in enumeration order, 0-based index `i`):
  1. deserializes the file with `json.loads`;
  2. resolves the image path with `os.path.join(img_path, d['file'])` —
     note the cell never imports `os`;
  3. fetches the image bytes with `fs.cat` and decodes them with
     `cv2.imdecode(arr, 1)`;
  4. draws one rectangle per entry of `d['annotations']`, colored by
     `class_id`;
  5. places the image at grid cell `(i // 2, i % 2)` of a
     `plt.subplots((len(json_files)+1)//2, 2)` grid with caption
     `f'[img-\x7bi:02\x7d] \x7bimg_fname\x7d'`.

Python-level semantics that the embedding makes explicit:
  - name resolution: `os` is looked up at use; since the cell has no
    `import os`, the lookup raises `NameError` before the call's arguments
    are evaluated.  The embedding takes a flag `osBound` giving the binding
    state of the name `os`; the cell as written corresponds to
    `osBound = false`.
  - `json.loads` raises on syntactically invalid content; dictionary key
    access `d[k]` raises `KeyError` at the point of access, not at parse
    time.
  - `fs.cat` raises a file-not-found error when the key does not exist.
  - `cv2.imdecode` never raises on undecodable bytes: it returns `None`
    (modeled as `Option.none`); with flag `1` (`IMREAD_COLOR`) a successful
    decode always yields a 3-channel image, with flag `0` a 1-channel
    image, and with a negative flag the source's own channel count.
  - `cv2.rectangle` with a nonnegative `thickness` draws an unfilled
    outline (filling requires the negative `cv2.FILLED`); calling it with
    `img=None` raises.
  - `plt.subplots(nrows, ncols=2)` squeezes the axes array: for
    `nrows = 1` it is one-dimensional, so `ax[row][col]` raises a
    subscript `TypeError`; for `nrows ≥ 2` it is two-dimensional and
    `ax[row][col]` succeeds exactly when `row < nrows` and `col < 2`.
-/

namespace BboxPlot

/-- One bounding-box dictionary inside an annotation file's `annotations`
list, with the keys the cell reads: `class_id`, `left`, `top`, `width`,
`height`. -/
structure BBox where
  class_id : Nat
  left : Int
  top : Int
  width : Int
  height : Int
deriving Repr, DecidableEq

/-- Content of one annotation file, abstracted to what `json.loads` and the
cell's key accesses can observe: either the content is not valid JSON, or
it is a record whose `file` and `annotations` keys may each be present or
absent (other keys are never read by the cell). -/
inductive JsonContent where
  | invalid : JsonContent
  | record : Option String → Option (List BBox) → JsonContent
deriving Repr, DecidableEq

/-- Raw image bytes as far as decoding can observe: either they encode an
image with some source channel count and dimensions, or they are not
decodable at all. -/
inductive ImgBytes where
  | encoded : (srcChannels : Nat) → (height : Nat) → (width : Nat) → ImgBytes
  | undecodable : ImgBytes
deriving Repr, DecidableEq

/-- A decoded pixel grid: height, width and channel count. -/
structure Image where
  height : Nat
  width : Nat
  channels : Nat
deriving Repr, DecidableEq

/-- Model of `cv2.imdecode(buf, flag)` from its documented contract: on
undecodable bytes it returns `None` (never raises); on decodable bytes,
flag `> 0` (`IMREAD_COLOR`, the cell passes `1`) always converts to a
3-channel image, flag `= 0` (`IMREAD_GRAYSCALE`) to 1 channel, and a
negative flag (`IMREAD_UNCHANGED`) keeps the source's channels. -/
def imdecode : ImgBytes → Int → Option Image
  | ImgBytes.encoded c h w, flag =>
      if 0 < flag then some ⟨h, w, 3⟩
      else if flag = 0 then some ⟨h, w, 1⟩
      else some ⟨h, w, c⟩
  | ImgBytes.undecodable, _ => none

/-- The box color computed by the cell: `color = [0,0,0]` then
`color[cid % 3] = 255`. -/
def boxColor (cid : Nat) : List Nat :=
  [0, 0, 0].set (cid % 3) 255

/-- One recorded call to `cv2.rectangle`: corner points, color and
thickness as the cell passes them. -/
structure RectCall where
  pt1 : Int × Int
  pt2 : Int × Int
  color : List Nat
  thickness : Int
deriving Repr, DecidableEq

/-- OpenCV convention: a rectangle is filled iff the thickness is negative
(`cv2.FILLED = -1`); a nonnegative thickness draws an outline. -/
def RectCall.filled (r : RectCall) : Bool :=
  r.thickness < 0

/-- The `cv2.rectangle` call the cell issues for one bounding box:
`pt1=(x_min, y_min)`, `pt2=(x_min + width, y_min + height)`,
`color=boxColor class_id`, `thickness=2`. -/
def rectangleCall (b : BBox) : RectCall :=
  { pt1 := (b.left, b.top)
  , pt2 := (b.left + b.width, b.top + b.height)
  , color := boxColor b.class_id
  , thickness := 2 }

/-- Model of `os.path.join(a, b)` for the cell's use: an absolute second
component replaces the first; otherwise the components are joined with a
separator unless one is already present.  (The leading/trailing slash
tests are phrased on the underlying character list.) -/
def pathJoin (a b : String) : String :=
  if b.data.head? = some '/' then b
  else if a = "" || a.data.getLast? = some '/' then a ++ b
  else a ++ "/" ++ b

/-- Python's `f'\x7bi:02\x7d'`: the decimal representation of `i`,
zero-filled on the left to a minimum width of 2. -/
def pad2 (i : Nat) : String :=
  if (Nat.repr i).length < 2 then "0" ++ Nat.repr i else Nat.repr i

/-- The grid-cell title set by the cell:
`f'[img-\x7bi:02\x7d] \x7bimg_fname\x7d'`. -/
def caption (i : Nat) (imgFname : String) : String :=
  "[img-" ++ pad2 i ++ "] " ++ imgFname

/-- The fixed column count of the plot grid (`ncols = 2`). -/
def ncols : Nat := 2

/-- The row count of the plot grid: `nrows = (len(json_files)+1)//2`. -/
def nrowsOf (n : Nat) : Nat := (n + 1) / 2

/-- The grid cell of the annotation file at enumeration index `i`:
`row, col = i//2, i%2`. -/
def cellOf (i : Nat) : Nat × Nat := (i / 2, i % 2)

/-- The uncaught Python exceptions the cell can raise, one constructor per
raise site: `NameError` at the lookup of an unbound name; the
`json.loads` failure; a missing-key `KeyError` (with the file index and
key); the `fs.cat` file-not-found failure (with the path); the failure of
`cv2.rectangle`/`imshow` on a `None` image; and the subscript `TypeError`
on the squeezed one-dimensional axes array. -/
inductive RunError where
  | nameError : String → RunError
  | jsonDecodeError : Nat → RunError
  | keyError : Nat → String → RunError
  | fileNotFoundError : String → RunError
  | noneImageError : Nat → RunError
  | axesSubscriptError : Nat → RunError
deriving Repr, DecidableEq

/-- One populated grid cell: its position, title, decoded image and the
rectangles drawn onto it. -/
structure Cell where
  row : Nat
  col : Nat
  title : String
  image : Image
  rects : List RectCall
deriving Repr, DecidableEq

/-- Whether `ax[row][col]` succeeds on the axes array of
`plt.subplots(nrows, ncols=2)`: with one row the squeezed array is
one-dimensional and the second subscript raises, so success needs
`2 ≤ nrows` besides the bounds. -/
def axSubscriptOk (nrows row col : Nat) : Bool :=
  2 ≤ nrows && row < nrows && col < ncols

/-- One iteration of the cell's per-file loop, in source order: parse the
content; look up `os` (unbound when `osBound = false` — Python resolves
the callable `os.path.join` before evaluating `d['file']`); read `file`
and join the path; fetch the bytes; decode; read `annotations` and draw
the boxes (drawing raises if the decoded image is `None`); subscript the
axes; set the title and show the image.  Returns the list of image paths
whose fetch was attempted, and either the populated cell or the first
exception. -/
def processFile (osBound : Bool) (imgPath : String)
    (store : String → Option ImgBytes) (nrows : Nat) (i : Nat) :
    JsonContent → List String × Except RunError Cell
  | JsonContent.invalid => ([], Except.error (RunError.jsonDecodeError i))
  | JsonContent.record file? annotations? =>
    if osBound = false then ([], Except.error (RunError.nameError "os"))
    else
      match file? with
      | none => ([], Except.error (RunError.keyError i "file"))
      | some f =>
        let imgFname := pathJoin imgPath f
        match store imgFname with
        | none => ([imgFname], Except.error (RunError.fileNotFoundError imgFname))
        | some bs =>
          let img? := imdecode bs 1
          match annotations? with
          | none => ([imgFname], Except.error (RunError.keyError i "annotations"))
          | some boxes =>
            if img?.isNone && !boxes.isEmpty then
              ([imgFname], Except.error (RunError.noneImageError i))
            else
              let rc := cellOf i
              if axSubscriptOk nrows rc.1 rc.2 = false then
                ([imgFname], Except.error (RunError.axesSubscriptError i))
              else
                match img? with
                | none => ([imgFname], Except.error (RunError.noneImageError i))
                | some img =>
                  ([imgFname],
                   Except.ok ⟨rc.1, rc.2, caption i imgFname, img,
                              boxes.map rectangleCall⟩)

/-- The cell's loop from index `i` over the remaining file contents: each
iteration either contributes a cell or raises, and a raise aborts the whole
loop (there is no `try`/`except`).  Accumulates the attempted image
fetches. -/
def runCells (osBound : Bool) (imgPath : String)
    (store : String → Option ImgBytes) (nrows : Nat) :
    Nat → List JsonContent → List String × Except RunError (List Cell)
  | _, [] => ([], Except.ok [])
  | i, c :: rest =>
    match processFile osBound imgPath store nrows i c with
    | (tr, Except.error e) => (tr, Except.error e)
    | (tr, Except.ok cell) =>
      match runCells osBound imgPath store nrows (i + 1) rest with
      | (tr2, Except.error e) => (tr ++ tr2, Except.error e)
      | (tr2, Except.ok cells) => (tr ++ tr2, Except.ok (cell :: cells))

/-- Outcome of running the cell: the image paths whose fetch was attempted,
and either the complete list of populated grid cells (the run reaches
`plt.show()`) or the uncaught exception that aborted it. -/
structure RunResult where
  fetched : List String
  result : Except RunError (List Cell)
deriving Repr

/-- The whole code cell on a given listing of annotation-file contents:
computes `nrows = (count+1)//2`, builds the axes grid, then runs the loop
from index 0.  `osBound = false` is the cell as written (no `import os`);
`osBound = true` is the cell with that import repaired. -/
def runNotebook (osBound : Bool) (imgPath : String)
    (store : String → Option ImgBytes) (files : List JsonContent) :
    RunResult :=
  let r := runCells osBound imgPath store (nrowsOf files.length) 0 files
  ⟨r.1, r.2⟩

/-- The spec's `MalformedAnnotationError` corresponds to the exceptions of
parsing and of required-field access: the `json.loads` failure and
missing-key `KeyError`s. -/
def RunError.isParseOrFieldError : RunError → Bool
  | RunError.jsonDecodeError _ => true
  | RunError.keyError _ _ => true
  | _ => false

lemma toDigitsCore_length_mono (b : Nat) :
    ∀ (f n : Nat) (ds : List Char), ds.length ≤ (Nat.toDigitsCore b f n ds).length := by
  intro f
  induction f with
  | zero => intro n ds; simp [Nat.toDigitsCore]
  | succ f ih =>
    intro n ds
    simp only [Nat.toDigitsCore]
    split
    · simp
    · exact le_trans (by simp) (ih _ _)

lemma one_le_repr_length (n : Nat) : 1 ≤ (Nat.repr n).length := by
  show 1 ≤ (Nat.toDigitsCore 10 (n + 1) n []).length
  simp only [Nat.toDigitsCore]
  split
  · simp
  · exact le_trans (by simp) (toDigitsCore_length_mono 10 n (n / 10) _)

/-- C1: the box color sets channel `classId % 3` to 255 and the other two
channels to 0, so the highlighted channel of `classId` equals that of
`classId + 3` (classIds congruent mod 3 share one channel). -/
theorem boxColor_roundRobin (c : Nat) :
    (boxColor c)[c % 3]? = some 255 ∧
    (∀ j : Nat, j < 3 → j ≠ c % 3 → (boxColor c)[j]? = some 0) ∧
    boxColor (c + 3) = boxColor c := by
  have h3 : c % 3 = 0 ∨ c % 3 = 1 ∨ c % 3 = 2 := by omega
  have hm : (c + 3) % 3 = c % 3 := by omega
  unfold boxColor
  rw [hm]
  rcases h3 with h | h | h <;> rw [h] <;>
    refine ⟨by decide, ?_, rfl⟩ <;>
    (intro j hj hne; interval_cases j <;> simp_all)

/-- Witness for C1 at `classId = 4`: the second channel (index `4 % 3 = 1`)
is 255, channel 0 is 0, and `classId = 7 = 4 + 3` selects the same color. -/
theorem boxColor_roundRobin_witness :
    (boxColor 4)[4 % 3]? = some 255 ∧ (boxColor 4)[0]? = some 0 ∧
    boxColor 7 = boxColor 4 :=
  ⟨(boxColor_roundRobin 4).1,
   (boxColor_roundRobin 4).2.1 0 (by decide) (by decide),
   (boxColor_roundRobin 4).2.2⟩

/-- C4: with the code's fixed `ncols = 2`, the row count `(n+1)//2` is
`ceil(n / ncols)` (stated both as the rounding division and by the ceiling
characterization), index `i` lands in cell `(i div ncols, i mod ncols)`
inside the grid bounds, and for 5 files there are 3 rows and cell `(2,1)`
is unused. -/
theorem grid_layout (n i : Nat) :
    nrowsOf n = (n + ncols - 1) / ncols ∧
    n ≤ ncols * nrowsOf n ∧
    ncols * nrowsOf n < n + ncols ∧
    cellOf i = (i / ncols, i % ncols) ∧
    (i < n → (cellOf i).1 < nrowsOf n ∧ (cellOf i).2 < ncols) ∧
    nrowsOf 5 = 3 ∧ (2, 1) ∉ (List.range 5).map cellOf := by
  refine ⟨?_, ?_, ?_, rfl, fun h => ⟨?_, ?_⟩, by decide, by decide⟩
  · show (n + 1) / 2 = (n + 2 - 1) / 2
    omega
  · show n ≤ 2 * ((n + 1) / 2)
    omega
  · show 2 * ((n + 1) / 2) < n + 2
    omega
  · show i / 2 < (n + 1) / 2
    omega
  · show i % 2 < 2
    omega

/-- Witness for C4 at `n = 5`, `i = 4`: the last of 5 files lands inside
the 3-row grid, and cell `(2,1)` is unused. -/
theorem grid_layout_witness :
    (4 : Nat) < 5 ∧ (cellOf 4).1 < nrowsOf 5 ∧
    (2, 1) ∉ (List.range 5).map cellOf :=
  ⟨by decide, ((grid_layout 5 4).2.2.2.2.1 (by decide)).1,
   (grid_layout 5 4).2.2.2.2.2.2⟩

/-- C6: each bounding box is drawn as a rectangle from `(left, top)` to
`(left + width, top + height)` with thickness 2, unfilled (nonnegative
thickness means outline in OpenCV). -/
theorem rectangleCall_spec (b : BBox) :
    (rectangleCall b).pt1 = (b.left, b.top) ∧
    (rectangleCall b).pt2 = (b.left + b.width, b.top + b.height) ∧
    (rectangleCall b).thickness = 2 ∧
    (rectangleCall b).filled = false :=
  ⟨rfl, rfl, rfl, rfl⟩

/-- C7: the grid-cell caption is `[img-` followed by the index zero-padded
to at least 2 characters, `] `, and the resolved image path; at `i = 2` it
is exactly `[img-02] ` followed by the path. -/
theorem caption_spec (i : Nat) (p : String) :
    caption i p = "[img-" ++ pad2 i ++ "] " ++ p ∧
    2 ≤ (pad2 i).length ∧
    caption 2 p = "[img-02] " ++ p := by
  refine ⟨rfl, ?_, ?_⟩
  · unfold pad2
    split
    · rw [String.length_append]
      have h1 := one_le_repr_length i
      have h0 : ("0" : String).length = 1 := by decide
      omega
    · omega
  · show "[img-" ++ pad2 2 ++ "] " ++ p = "[img-02] " ++ p
    have h : "[img-" ++ pad2 2 ++ "] " = "[img-02] " := by decide
    exact congrArg (fun s => s ++ p) h

/-- The notebook's image prefix, for concrete runs. -/
def demoImgPath : String := "s3://bucket/dataset/train/"

/-- A concrete store holding one decodable 3-channel image at `a.jpg`. -/
def demoStore : String → Option ImgBytes := fun p =>
  if p = "s3://bucket/dataset/train/a.jpg" then some (ImgBytes.encoded 3 8 8)
  else none

/-- A concrete store holding undecodable bytes at `a.jpg`. -/
def demoStoreBad : String → Option ImgBytes := fun p =>
  if p = "s3://bucket/dataset/train/a.jpg" then some ImgBytes.undecodable
  else none

/-- The empty store: every fetch misses. -/
def emptyStore : String → Option ImgBytes := fun _ => none

/-- C9 counterexample: a run whose single annotation file is invalid JSON
fails at the parse, not with the unbound-name error, so not every run with
at least one file fails with the `NameError`. -/
theorem osBug_counterexample :
    (runNotebook false demoImgPath demoStore [JsonContent.invalid]).result
      = Except.error (RunError.jsonDecodeError 0) ∧
    RunError.jsonDecodeError 0 ≠ RunError.nameError "os" :=
  ⟨rfl, by decide⟩

/-- C9 (amended): every run whose first annotation file parses (a `record`)
fails with the unbound-name `NameError` on `os` at the first iteration,
with no image fetch attempted and no grid cell produced. -/
theorem osBug_nameError (imgPath : String) (store : String → Option ImgBytes)
    (f? : Option String) (a? : Option (List BBox)) (rest : List JsonContent) :
    runNotebook false imgPath store (JsonContent.record f? a? :: rest)
      = ⟨[], Except.error (RunError.nameError "os")⟩ := by
  simp [runNotebook, runCells, processFile]

/-- C2 counterexample: an annotation file that is valid JSON but misses the
`annotations` key does not make the parse step fail — the run's failure is
the unbound-name error, which is not a `MalformedAnnotationError`. -/
theorem parse_counterexample :
    (runNotebook false demoImgPath demoStore
        [JsonContent.record (some "a.jpg") none]).result
      = Except.error (RunError.nameError "os") ∧
    (RunError.nameError "os").isParseOrFieldError = false :=
  ⟨rfl, rfl⟩

/-- C2 (amended): invalid JSON fails at the parse step before any fetch;
but missing required keys are detected lazily: with `os` bound, a missing
`file` key fails at path resolution (still before the fetch), while a
missing `annotations` key fails only after the image fetch succeeded. -/
theorem parse_behavior (osBound : Bool) (imgPath : String)
    (store : String → Option ImgBytes) (nr i : Nat) :
    processFile osBound imgPath store nr i JsonContent.invalid
      = ([], Except.error (RunError.jsonDecodeError i)) ∧
    (∀ a?, processFile true imgPath store nr i (JsonContent.record none a?)
      = ([], Except.error (RunError.keyError i "file"))) ∧
    (∀ f bs, store (pathJoin imgPath f) = some bs →
      processFile true imgPath store nr i (JsonContent.record (some f) none)
        = ([pathJoin imgPath f],
           Except.error (RunError.keyError i "annotations"))) := by
  refine ⟨rfl, fun a? => ?_, fun f bs h => ?_⟩
  · simp [processFile]
  · simp [processFile, h]

/-- Witness for C2 (amended): with `a.jpg` present in the store, a file
with a `file` key but no `annotations` key fails with the `annotations`
`KeyError` after its image fetch was attempted. -/
theorem parse_behavior_witness :
    demoStore (pathJoin demoImgPath "a.jpg") = some (ImgBytes.encoded 3 8 8) ∧
    processFile true demoImgPath demoStore 1 0
        (JsonContent.record (some "a.jpg") none)
      = ([pathJoin demoImgPath "a.jpg"],
         Except.error (RunError.keyError 0 "annotations")) :=
  ⟨rfl, (parse_behavior true demoImgPath demoStore 1 0).2.2 "a.jpg"
          (ImgBytes.encoded 3 8 8) rfl⟩

/-- C3 counterexample: on undecodable image bytes the decode step produces
the value `none` instead of raising, and the run as written fails with the
unbound-name error, not any image-decode error. -/
theorem decode_counterexample :
    imdecode ImgBytes.undecodable 1 = none ∧
    (runNotebook false demoImgPath demoStoreBad
        [JsonContent.record (some "a.jpg") (some [⟨0, 1, 2, 3, 4⟩])]).result
      = Except.error (RunError.nameError "os") :=
  ⟨rfl, rfl⟩

/-- C3 (amended): the decode step is total — undecodable bytes yield
`none` — and with `os` bound the run fails only downstream, when the first
`cv2.rectangle` call receives the `None` image. -/
theorem decode_none_behavior (imgPath : String)
    (store : String → Option ImgBytes) (nr i : Nat) (f : String)
    (boxes : List BBox)
    (hstore : store (pathJoin imgPath f) = some ImgBytes.undecodable)
    (hboxes : boxes ≠ []) :
    imdecode ImgBytes.undecodable 1 = none ∧
    processFile true imgPath store nr i
        (JsonContent.record (some f) (some boxes))
      = ([pathJoin imgPath f], Except.error (RunError.noneImageError i)) := by
  refine ⟨rfl, ?_⟩
  cases boxes with
  | nil => exact absurd rfl hboxes
  | cons b bs => simp [processFile, hstore, imdecode]

/-- Witness for C3 (amended): a file whose image bytes are undecodable and
which has one bounding box fails with the `None`-image error, after the
fetch. -/
theorem decode_none_behavior_witness :
    processFile true demoImgPath demoStoreBad 1 0
        (JsonContent.record (some "a.jpg") (some [⟨0, 1, 2, 3, 4⟩]))
      = ([pathJoin demoImgPath "a.jpg"],
         Except.error (RunError.noneImageError 0)) :=
  (decode_none_behavior demoImgPath demoStoreBad 1 0 "a.jpg"
    [⟨0, 1, 2, 3, 4⟩] rfl (by decide)).2

/-- C5 counterexample: a run whose single annotation file references the
missing image `missing.jpg` fails with the unbound-name error, not with a
file-not-found (`ImageNotFoundError`) failure. -/
theorem abort_counterexample :
    (runNotebook false demoImgPath emptyStore
        [JsonContent.record (some "missing.jpg") (some [])]).result
      = Except.error (RunError.nameError "os") ∧
    RunError.nameError "os"
      ≠ RunError.fileNotFoundError (pathJoin demoImgPath "missing.jpg") :=
  ⟨rfl, by decide⟩

/-- C5 (amended): the loop has no `try`/`except` — whatever error any file
raises becomes the error of the whole run, the remaining files are never
processed and no cell list is produced; and with `os` bound, a file
referencing a missing image aborts with the file-not-found error at the
fetch. -/
theorem abort_behavior (osBound : Bool) (imgPath : String)
    (store : String → Option ImgBytes) (nr i : Nat) (c : JsonContent)
    (rest : List JsonContent) (tr : List String) (e : RunError)
    (hc : processFile osBound imgPath store nr i c = (tr, Except.error e)) :
    runCells osBound imgPath store nr i (c :: rest) = (tr, Except.error e) ∧
    (∀ f a?, store (pathJoin imgPath f) = none →
      processFile true imgPath store nr i (JsonContent.record (some f) a?)
        = ([pathJoin imgPath f],
           Except.error (RunError.fileNotFoundError (pathJoin imgPath f)))) := by
  constructor
  · simp [runCells, hc]
  · intro f a? h
    simp [processFile, h]

/-- Witness for C5 (amended): the single-file run on `missing.jpg` aborts
immediately, and with `os` bound the same file aborts with the
file-not-found error. -/
theorem abort_behavior_witness :
    runCells false demoImgPath emptyStore 1 0
        [JsonContent.record (some "missing.jpg") (some [])]
      = ([], Except.error (RunError.nameError "os")) ∧
    processFile true demoImgPath emptyStore 1 0
        (JsonContent.record (some "missing.jpg") (some []))
      = ([pathJoin demoImgPath "missing.jpg"],
         Except.error (RunError.fileNotFoundError
           (pathJoin demoImgPath "missing.jpg"))) := by
  have h := abort_behavior false demoImgPath emptyStore 1 0
      (JsonContent.record (some "missing.jpg") (some [])) [] []
      (RunError.nameError "os") rfl
  exact ⟨h.1, h.2 "missing.jpg" (some []) rfl⟩

/-- C8: every successful decode at the cell's flag `1` (`IMREAD_COLOR`)
yields a 3-channel image, whatever the source channel count. -/
theorem imdecode_color_channels (bs : ImgBytes) (img : Image)
    (h : imdecode bs 1 = some img) : img.channels = 3 := by
  cases bs with
  | encoded c hh w =>
    have hr : imdecode (ImgBytes.encoded c hh w) 1 = some ⟨hh, w, 3⟩ := rfl
    rw [hr] at h
    cases h
    rfl
  | undecodable => simp [imdecode] at h

/-- Witness for C8: a single-channel (grayscale) source decodes to a
3-channel image. -/
theorem imdecode_color_channels_witness :
    imdecode (ImgBytes.encoded 1 8 6) 1 = some ⟨8, 6, 3⟩ ∧
    (Image.mk 8 6 3).channels = 3 :=
  ⟨rfl, imdecode_color_channels (ImgBytes.encoded 1 8 6) ⟨8, 6, 3⟩ rfl⟩

/-- C10 counterexample: on a well-formed single-file input the run as
written fails with the unbound-name error — the axes subscript
`ax[row][col]` is never even reached, so it is not the failing access. -/
theorem axes_counterexample :
    (runNotebook false demoImgPath demoStore
        [JsonContent.record (some "a.jpg") (some [])]).result
      = Except.error (RunError.nameError "os") ∧
    RunError.nameError "os" ≠ RunError.axesSubscriptError 0 :=
  ⟨rfl, by decide⟩

/-- C10 (amended): 1 or 2 files give a single computed row, and with `os`
bound a well-formed file then fails at the one-dimensional axes subscript
before any cell is placed; with at least two rows (3 or more files) the
same file is placed successfully at `(i div 2, i mod 2)`. -/
theorem axes_subscript_behavior (imgPath : String)
    (store : String → Option ImgBytes) (i : Nat) (f : String)
    (boxes : List BBox) (c h w : Nat)
    (hstore : store (pathJoin imgPath f) = some (ImgBytes.encoded c h w)) :
    nrowsOf 1 = 1 ∧ nrowsOf 2 = 1 ∧ (∀ n, 3 ≤ n → 2 ≤ nrowsOf n) ∧
    processFile true imgPath store 1 i
        (JsonContent.record (some f) (some boxes))
      = ([pathJoin imgPath f],
         Except.error (RunError.axesSubscriptError i)) ∧
    (∀ nr, 2 ≤ nr → i / 2 < nr →
      processFile true imgPath store nr i
          (JsonContent.record (some f) (some boxes))
        = ([pathJoin imgPath f],
           Except.ok ⟨i / 2, i % 2, caption i (pathJoin imgPath f),
                      ⟨h, w, 3⟩, boxes.map rectangleCall⟩)) := by
  have hdec : imdecode (ImgBytes.encoded c h w) 1 = some ⟨h, w, 3⟩ := rfl
  refine ⟨rfl, rfl, fun n hn => ?_, ?_, fun nr h2 hlt => ?_⟩
  · show 2 ≤ (n + 1) / 2
    omega
  · have hax : axSubscriptOk 1 (i / 2) (i % 2) = false := by
      simp [axSubscriptOk]
    simp [processFile, hstore, hdec, cellOf, hax]
  · have hax : axSubscriptOk nr (i / 2) (i % 2) = true := by
      simp only [axSubscriptOk, ncols, Bool.and_eq_true, decide_eq_true_eq]
      omega
    simp [processFile, hstore, hdec, cellOf, hax]

/-- Witness for C10 (amended): the same well-formed file fails at the axes
subscript with `nrows = 1` and is placed at cell `(0,0)` with `nrows = 2`. -/
theorem axes_subscript_behavior_witness :
    processFile true demoImgPath demoStore 1 0
        (JsonContent.record (some "a.jpg") (some []))
      = ([pathJoin demoImgPath "a.jpg"],
         Except.error (RunError.axesSubscriptError 0)) ∧
    processFile true demoImgPath demoStore 2 0
        (JsonContent.record (some "a.jpg") (some []))
      = ([pathJoin demoImgPath "a.jpg"],
         Except.ok ⟨0, 0, caption 0 (pathJoin demoImgPath "a.jpg"),
                    ⟨8, 8, 3⟩, []⟩) := by
  have h := axes_subscript_behavior demoImgPath demoStore 0 "a.jpg" [] 3 8 8 rfl
  exact ⟨h.2.2.2.1, h.2.2.2.2 2 (by decide) (by decide)⟩

end BboxPlot
